import Mathlib

/-!
# Verification of `span_panel/synthetic_solar.py`

A shallow embedding of the solar synthetic-sensor generation module
(`custom_components/span_panel/synthetic_solar.py`) together with proofs of the
spec's claims about it.

Modelling conventions:

* Python dictionaries whose iteration order matters become association lists
  (`List (String × α)`) in insertion order; `lookupVar` is `dict.get` (first
  matching key) and `dictSet` is item assignment (update in place, else append).
* Python string operations used by the module (`startswith`, `replace`,
  `in`, `int(...)`, `str.strip` inside `int`) are re-implemented over
  `List Char` so that they evaluate by kernel reduction; only ASCII decimal
  digits are modelled for `int(...)` (with Python's underscore-between-digits
  rule and optional sign), which covers every token shape the module meets.
* `sorted(...)` on tab numbers is modelled by the stable ascending sort
  `List.insertionSort (· ≤ ·)`, which agrees with Python's stable sort.
* External collaborators (the template renderer `combine_yaml_templates`, the
  entity-naming helpers, `slugify`, `panel_to_device_info`) are parameters,
  bundled in `Externals`: every theorem quantifies over their behaviour.
  The renderer's outcome is `RenderOut`, which can model a raised exception
  (`raises`), a non-mapping / falsy return (`nonMapping`), or a mapping with
  optional `sensor_configs` and `global_settings` keys (a key that is present
  with value `None` behaves exactly like the failing value it is collapsed
  into: an absent `global_settings`, an empty `sensor_configs`).
* Exceptions that the module itself may let escape (only the `int(...)` parse
  in `_extract_leg_numbers` is unguarded) are modelled with `Except String`.
* At the only call site of `_process_sensor_template` every template-variable
  value is already a string (`generate_solar_sensors` builds them with `str`),
  matching the spec's data model ("value (string, after normalization)"), so
  template-variable maps are `List (String × String)` and the stringification
  loop of the source is the identity on them.
* Circuit records carry only the fields this module reads (`circuit_id`,
  `name`, `tabs`); the remaining constructor fields of `SpanPanelCircuit`
  (relay state, powers, flags) are never read by the module or by the
  attribute helpers and are omitted.  The source's `hasattr(circuit, 'tabs')`
  probe is statically true here; Python truthiness of `circuit.tabs` (not
  `None` and not empty) is modelled explicitly.
-/

/-! ## Python-style string and dictionary primitives -/

/-- First-match association-list lookup: Python `dict.get(k)`. -/
def lookupVar {α : Type} : List (String × α) → String → Option α
  | [], _ => none
  | (k, v) :: rest, key => if k = key then some v else lookupVar rest key

/-- Python `d[k] = v`: update the existing entry in place, else append. -/
def dictSet {α : Type} (m : List (String × α)) (k : String) (v : α) :
    List (String × α) :=
  if (lookupVar m k).isSome then
    m.map (fun p => if p.1 = k then (k, v) else p)
  else m ++ [(k, v)]

/-- The keys of an association list, in order. -/
def keysOf {α : Type} (m : List (String × α)) : List String := m.map Prod.fst

/-- Is `p` a prefix of the second list?  (Python `str.startswith`.) -/
def isPrefixList : List Char → List Char → Bool
  | [], _ => true
  | _ :: _, [] => false
  | p :: ps, c :: cs => p == c && isPrefixList ps cs

/-- Python `s.startswith(pre)`. -/
def pyStartswith (s pre : String) : Bool := isPrefixList pre.data s.data

/-- Is `needle` a contiguous sublist of the second list?  (Python `in`.) -/
def isSubList (needle : List Char) : List Char → Bool
  | [] => isPrefixList needle []
  | c :: cs => isPrefixList needle (c :: cs) || isSubList needle cs

/-- Python `needle in haystack` on strings. -/
def pyContains (haystack needle : String) : Bool := isSubList needle.data haystack.data

/-- Fuelled worker for `pyReplace`: replaces non-overlapping occurrences of
`pat` left to right.  The fuel starts at the input length and each step
consumes at least one input character, so it never runs out; the module only
ever replaces the fixed non-empty token `"unmapped_tab_"`, so the empty-`pat`
corner of Python `replace` is irrelevant here. -/
def replaceLoop (pat repl : List Char) : Nat → List Char → List Char
  | _, [] => []
  | 0, l => l
  | fuel + 1, c :: cs =>
    if isPrefixList pat (c :: cs) then
      repl ++ replaceLoop pat repl fuel (List.drop (pat.length - 1) cs)
    else c :: replaceLoop pat repl fuel cs

/-- Python `s.replace(pat, repl)` (replace all occurrences). -/
def pyReplace (s pat repl : String) : String :=
  ⟨replaceLoop pat.data repl.data s.data.length s.data⟩

/-- Python `str.strip()` of surrounding whitespace, as done by `int(...)`. -/
def stripWhitespace (cs : List Char) : List Char :=
  ((cs.dropWhile Char.isWhitespace).reverse.dropWhile Char.isWhitespace).reverse

/-- A valid digit run for Python `int(...)`: decimal digits with single
underscores allowed strictly between digits. -/
def digitsRun : List Char → Bool
  | [] => false
  | [c] => c.isDigit
  | c :: '_' :: rest => c.isDigit && digitsRun rest
  | c :: rest => c.isDigit && digitsRun rest

/-- Numeric value of a digit run (underscores already filtered out). -/
def digitsVal (cs : List Char) : Nat :=
  cs.foldl (fun acc c => acc * 10 + (c.toNat - '0'.toNat)) 0

/-- Python `int(s)`: strip whitespace, optional sign, ASCII decimal digits
with underscores between digits; `none` models a raised `ValueError`. -/
def pyInt (s : String) : Option Int :=
  let t := stripWhitespace s.data
  let (sign, ds) : Int × List Char :=
    match t with
    | '+' :: rest => (1, rest)
    | '-' :: rest => (-1, rest)
    | _ => (1, t)
  if digitsRun ds then some (sign * (digitsVal (ds.filter (fun c => c ≠ '_')))) else none

/-- Render `ts` as Python's `"_".join(str(t) for t in ts)`. -/
def underscoreJoin : List Int → String
  | [] => ""
  | [t] => toString t
  | t :: rest => toString t ++ "_" ++ underscoreJoin rest

/-! ## Data model -/

/-- The slice of a SPAN circuit record read by this module: identity, display
name and the (optional) list of panel tabs the circuit spans. -/
structure SpanPanelCircuit where
  circuit_id : String
  name : String
  tabs : Option (List Int)
deriving DecidableEq

/-- Panel status: only the serial number is read. -/
structure SpanPanelStatus where
  serial_number : String
deriving DecidableEq

/-- The SPAN panel snapshot: circuits as an insertion-ordered mapping from
circuit id to circuit record, plus status. -/
structure SpanPanel where
  circuits : List (String × SpanPanelCircuit)
  status : SpanPanelStatus
deriving DecidableEq

/-- The coordinator slice read by this module: the two display-precision
entries of `config_entry.options` (`none` = key absent, defaulted by `get`). -/
structure SpanPanelCoordinator where
  power_display_precision : Option Int
  energy_display_precision : Option Int
deriving DecidableEq

/-- A backing entity (`synthetic_utils.BackingEntity`).  The generator never
constructs one, so only a representative field is carried. -/
structure BackingEntity where
  entity_id : String
deriving DecidableEq

/-- One entry of the renderer's `sensor_configs` mapping, with every field
optional (`dict.get` with defaults is applied afterwards). -/
structure RawSensorConfig where
  entity_id : Option String
  name : Option String
  formula : Option String
  «variables» : Option (List (String × String))
  attributes : Option (List (String × String))
  metadata : Option (List (String × String))
deriving DecidableEq

/-- The normalized sensor-config record emitted by the module. -/
structure SensorConfig where
  entity_id : String
  name : String
  formula : String
  «variables» : List (String × String)
  attributes : List (String × String)
  metadata : List (String × String)
deriving DecidableEq

/-- One entry of `SOLAR_SENSOR_DEFINITIONS`. -/
structure SensorDef where
  template : String
  sensor_type : String
  description : String
deriving DecidableEq

/-- Outcome of one call to the external `combine_yaml_templates` renderer:
a raised exception, a falsy/non-mapping return, or a mapping with optional
`sensor_configs` and `global_settings` keys. -/
inductive RenderOut where
  | raises
  | nonMapping
  | result (sensor_configs : Option (List (String × RawSensorConfig)))
      (global_settings : Option (List (String × String)))
deriving DecidableEq

/-- The external collaborators consumed by the module, as opaque functions:
`slugify`, the `name` entry of `panel_to_device_info` (outer `none` = key
absent, inner `none` = a `None` value), the unmapped-circuit naming fallback,
the 240V and 120V synthetic-entity-id helpers, and the template renderer. -/
structure Externals where
  slugify : String → String
  device_info_name : SpanPanel → Option (Option String)
  get_unmapped_circuit_entity_id : SpanPanel → Int → String → Option String
  construct_240v_synthetic_entity_id :
    SpanPanelCoordinator → SpanPanel → String → String → String → Int → Int →
      Option String
  construct_120v_synthetic_entity_id :
    SpanPanelCoordinator → SpanPanel → String → String → String → Int →
      Option String
  combine_yaml_templates : List String → List (String × String) → RenderOut

/-- First entry of `SOLAR_SENSOR_DEFINITIONS` (lines 32–36). -/
def solarPowerDef : SensorDef :=
  { template := "solar_current_power.yaml.txt"
  , sensor_type := "power"
  , description := "Current solar power production" }

/-- Second entry of `SOLAR_SENSOR_DEFINITIONS` (lines 37–41). -/
def solarProducedDef : SensorDef :=
  { template := "solar_produced_energy.yaml.txt"
  , sensor_type := "energy_produced"
  , description := "Total solar energy produced" }

/-- Third entry of `SOLAR_SENSOR_DEFINITIONS` (lines 42–46). -/
def solarConsumedDef : SensorDef :=
  { template := "solar_consumed_energy.yaml.txt"
  , sensor_type := "energy_consumed"
  , description := "Total solar energy consumed" }

/-- `SOLAR_SENSOR_DEFINITIONS` (lines 31–47 of the source). -/
def SOLAR_SENSOR_DEFINITIONS : List SensorDef :=
  [solarPowerDef, solarProducedDef, solarConsumedDef]

/-! ## Spec-modelled helpers

These three helpers live in `helpers.py`, outside the repository slice under
verification; they are modelled from the spec. -/

/-- Modelled from the spec: `helpers.construct_synthetic_unique_id` is the
"Unique-id constructor: `(device_serial, kind_token) -> unique_id`", a unique
id "derived deterministically from (device serial, sensor kind)"; distinct
kind tokens must give distinct ids for the id to be unique, so it is modelled
as the serial and the kind token joined by a separator. -/
def construct_synthetic_unique_id (device_serial kind_token : String) : String :=
  device_serial ++ "_" ++ kind_token

/-- Modelled from the spec: `helpers.construct_tabs_attribute` derives "a
'tabs' attribute (canonical string list of tab numbers)" from a circuit-like
object — the tab numbers sorted ascending in canonical underscore-joined form
(the spec's example form is `"15_16"`), or `None` for a circuit without tabs. -/
def construct_tabs_attribute (c : SpanPanelCircuit) : Option String :=
  match c.tabs with
  | none => none
  | some [] => none
  | some ts => some (underscoreJoin (ts.insertionSort (· ≤ ·)))

/-- Modelled from the spec: `helpers.construct_voltage_attribute` derives "a
'voltage' attribute (derived from tab count — single tab implies one nominal
voltage class, two tabs the other)": 120 for one tab, 240 for two. -/
def construct_voltage_attribute (c : SpanPanelCircuit) : Option Int :=
  match c.tabs with
  | some [_] => some 120
  | some [_, _] => some 240
  | _ => none

/-! ## The module itself -/

/-- Device display name as computed inside `_get_circuit_entity_id`
(lines 100–102): `device_info.get("name", "span_panel")`, slugified when
truthy, else the literal `"span_panel"`. -/
def deviceNameOf (ext : Externals) (span_panel : SpanPanel) : String :=
  let raw : Option String := (ext.device_info_name span_panel).getD (some "span_panel")
  match raw with
  | some s => if s = "" then "span_panel" else ext.slugify s
  | none => "span_panel"

/-- The scan of lines 97–98: the first circuit (in mapping order) whose `tabs`
field is truthy (not `None`, not empty) and contains `tab`. -/
def firstTabMatch (tab : Int) : List (String × SpanPanelCircuit) → Option SpanPanelCircuit
  | [] => none
  | (_, c) :: rest =>
    match c.tabs with
    | some ts => if ts ≠ [] ∧ tab ∈ ts then some c else firstTabMatch tab rest
    | none => firstTabMatch tab rest

/-- Entity id built for a mapped circuit (lines 100–115): single-tab circuits
use the queried tab number, multi-tab circuits use their sorted tab list. -/
def mappedCircuitEntityId (ext : Externals) (span_panel : SpanPanel)
    (c : SpanPanelCircuit) (tab_number : Int) (suffix : String) : String :=
  let device_name := deviceNameOf ext span_panel
  let ts := c.tabs.getD []
  if ts.length = 1 then
    "sensor." ++ device_name ++ "_circuit_" ++ toString tab_number ++ "_" ++ suffix
  else
    "sensor." ++ device_name ++ "_circuit_" ++
      underscoreJoin (ts.insertionSort (· ≤ ·)) ++ "_" ++ suffix

/-- `_get_circuit_entity_id` (lines 94–119): mapped circuit first, then the
external unmapped-circuit fallback. -/
def _get_circuit_entity_id (ext : Externals) (span_panel : SpanPanel)
    (tab_number : Int) (suffix : String) : Option String :=
  match firstTabMatch tab_number span_panel.circuits with
  | some c => some (mappedCircuitEntityId ext span_panel c tab_number suffix)
  | none => ext.get_unmapped_circuit_entity_id span_panel tab_number suffix

/-- One leg's block of `_get_leg_entities` (lines 121–165; the leg-1 and
leg-2 blocks are identical up to the leg number): resolve the three
measurement suffixes when the leg is configured (`> 0`), else `None`s. -/
def legEntityTriple (ext : Externals) (span_panel : SpanPanel) (leg_number : Int) :
    Option String × Option String × Option String :=
  if 0 < leg_number then
    (_get_circuit_entity_id ext span_panel leg_number "power",
     _get_circuit_entity_id ext span_panel leg_number "energy_produced",
     _get_circuit_entity_id ext span_panel leg_number "energy_consumed")
  else (none, none, none)

/-- `_get_leg_entities`, continued: the six-entry leg-variable dictionary
(lines 167–176, with the source's `or ""` defaults) and the
required-entities list (the resolved ids of leg 1 then leg 2; only non-`None`
results are collected, as by the `isinstance(entity, str)` filter). -/
def _get_leg_entities (ext : Externals) (span_panel : SpanPanel)
    (leg1_number leg2_number : Int) :
    List (String × String) × List String :=
  let t1 := legEntityTriple ext span_panel leg1_number
  let t2 := legEntityTriple ext span_panel leg2_number
  let required_entities :=
    ([t1.1, t1.2.1, t1.2.2].filterMap id) ++ ([t2.1, t2.2.1, t2.2.2].filterMap id)
  let leg_entities :=
    [ ("leg1_power_entity", t1.1.getD "")
    , ("leg1_produced_entity", t1.2.1.getD "")
    , ("leg1_consumed_entity", t1.2.2.getD "")
    , ("leg2_power_entity", t2.1.getD "")
    , ("leg2_produced_entity", t2.2.1.getD "")
    , ("leg2_consumed_entity", t2.2.2.getD "") ]
  (leg_entities, required_entities)

/-- `_get_template_attributes` (lines 184–221): with two configured legs,
derive tabs/voltage from a synthetic two-tab circuit (falsy results
defaulted); otherwise the empty-tabs / zero-voltage defaults. -/
def _get_template_attributes (leg1_number leg2_number : Int) : String × Int :=
  if 0 < leg1_number ∧ 0 < leg2_number then
    let synthetic_circuit : SpanPanelCircuit :=
      { circuit_id := "solar_synthetic"
      , name := "Solar Synthetic"
      , tabs := some [leg1_number, leg2_number] }
    let tabs_attribute_full := construct_tabs_attribute synthetic_circuit
    let voltage_attribute := construct_voltage_attribute synthetic_circuit
    (tabs_attribute_full.getD "", voltage_attribute.getD 0)
  else ("", 0)

/-- `_generate_sensor_entity_id` (lines 224–267): dual-tab (240V) naming when
both legs are configured, else single-tab (120V) naming with the active tab. -/
def _generate_sensor_entity_id (ext : Externals)
    (coordinator : SpanPanelCoordinator) (span_panel : SpanPanel)
    (sensor_type : String) (leg1_number leg2_number : Int) : Option String :=
  if 0 < leg1_number ∧ 0 < leg2_number then
    ext.construct_240v_synthetic_entity_id coordinator span_panel "sensor"
      sensor_type "Solar" leg1_number leg2_number
  else
    let active_tab := if 0 < leg1_number then leg1_number else leg2_number
    ext.construct_120v_synthetic_entity_id coordinator span_panel "sensor"
      sensor_type "Solar" active_tab

/-- `_extract_leg_numbers` (lines 50–71).  An identifier with the
`"unmapped_tab_"` prefix has the prefix stripped (all occurrences, as
`str.replace` does) and the rest parsed with `int(...)`; otherwise 0.  A parse
failure is an uncaught `ValueError`, modelled as `Except.error`. -/
def _extract_leg_numbers (leg1_circuit leg2_circuit : String) :
    Except String (Int × Int) :=
  let parse1 : Except String Int :=
    if pyStartswith leg1_circuit "unmapped_tab_" then
      match pyInt (pyReplace leg1_circuit "unmapped_tab_" "") with
      | some n => Except.ok n
      | none => Except.error "ValueError"
    else Except.ok 0
  let parse2 : Except String Int :=
    if leg2_circuit ≠ "" ∧ pyStartswith leg2_circuit "unmapped_tab_" then
      match pyInt (pyReplace leg2_circuit "unmapped_tab_" "") with
      | some n => Except.ok n
      | none => Except.error "ValueError"
    else Except.ok 0
  match parse1, parse2 with
  | .ok leg1_number, .ok leg2_number => .ok (leg1_number, leg2_number)
  | .error e, _ => .error e
  | .ok _, .error e => .error e

/-- The required-variable subset per sensor kind (lines 290–296): Python's
`in` on the kind string selects the leg1/leg2 pair for the kind. -/
def requiredVars (sensor_type : String) : List String :=
  if pyContains sensor_type "power" then
    ["leg1_power_entity", "leg2_power_entity"]
  else if pyContains sensor_type "produced" then
    ["leg1_produced_entity", "leg2_produced_entity"]
  else if pyContains sensor_type "consumed" then
    ["leg1_consumed_entity", "leg2_consumed_entity"]
  else []

/-- Does a renderer outcome fail `_process_sensor_template`'s checks (lines
344–364)?  True for a raise, a falsy or non-mapping result, an absent (or
`None`) `sensor_configs` key, and an empty `sensor_configs` mapping. -/
def renderOutFails : RenderOut → Bool
  | .raises => true
  | .nonMapping => true
  | .result none _ => true
  | .result (some sensors) _ => sensors.isEmpty

/-- `_process_sensor_template` (lines 270–380), with the renderer passed in as
a function.  Returns `none` where the source returns `None`.  At its only call
site all template-variable values are strings, so the stringification loop of
lines 312–323 is the identity and the copy-and-set of lines 308–309 is
`dictSet`. -/
def _process_sensor_template
    (render : List String → List (String × String) → RenderOut)
    (sensor_def : SensorDef) (template_vars : List (String × String))
    (entity_id : Option String) : Option SensorConfig :=
  match entity_id with
  | none => none
  | some eid =>
    if eid = "" then none
    else
      let required_vars := requiredVars sensor_def.sensor_type
      if required_vars.any (fun v => (lookupVar template_vars v).getD "" == "") then
        none
      else
        let sensor_template_vars := dictSet template_vars "entity_id" eid
        match render [sensor_def.template] sensor_template_vars with
        | .raises => none
        | .nonMapping => none
        | .result none _ => none
        | .result (some template_sensors) _ =>
          match template_sensors with
          | [] => none
          | (_, sensor_config) :: _ =>
            some
              { entity_id := sensor_config.entity_id.getD eid
              , name := sensor_config.name.getD ""
              , formula := sensor_config.formula.getD ""
              , «variables» := sensor_config.«variables».getD []
              , attributes := sensor_config.attributes.getD []
              , metadata := sensor_config.metadata.getD [] }

/-- The global-settings block of `generate_solar_sensors` (lines 407–430): a
header-only renderer call whose failure (raise, non-mapping, absent or `None`
`global_settings`) leaves the settings empty. -/
def _load_global_settings (ext : Externals) (coordinator : SpanPanelCoordinator)
    (span_panel : SpanPanel) : List (String × String) :=
  let power_precision := coordinator.power_display_precision.getD 0
  let energy_precision := coordinator.energy_display_precision.getD 2
  let header_placeholders :=
    [ ("device_identifier", span_panel.status.serial_number)
    , ("power_display_precision", toString power_precision)
    , ("energy_display_precision", toString energy_precision) ]
  match ext.combine_yaml_templates [] header_placeholders with
  | .result _ (some global_settings) => global_settings
  | _ => []

/-- The shared template-variable dictionary of lines 463–476, in the source's
key order (fixed entries first, then the six leg-entity entries). -/
def solarTemplateVars (coordinator : SpanPanelCoordinator)
    (span_panel : SpanPanel) (leg1_circuit leg2_circuit : String)
    (tabs_attribute : String) (voltage_attribute : Int)
    (leg_entities : List (String × String)) : List (String × String) :=
  [ ("device_identifier", span_panel.status.serial_number)
  , ("power_display_precision", toString (coordinator.power_display_precision.getD 0))
  , ("energy_display_precision", toString (coordinator.energy_display_precision.getD 2))
  , ("leg1_circuit", leg1_circuit)
  , ("leg2_circuit", leg2_circuit)
  , ("tabs_attribute", tabs_attribute)
  , ("voltage_attribute", toString voltage_attribute) ] ++ leg_entities

/-- The per-sensor loop of lines 483–508: each of the three definitions is
processed independently; a successful result is stored under its unique id,
a failure only skips that definition. -/
def solarSensorLoop (ext : Externals) (coordinator : SpanPanelCoordinator)
    (span_panel : SpanPanel) (template_vars : List (String × String))
    (leg1_number leg2_number : Int) : List (String × SensorConfig) :=
  SOLAR_SENSOR_DEFINITIONS.foldl
    (fun sensor_configs sensor_def =>
      let entity_id := _generate_sensor_entity_id ext coordinator span_panel
        sensor_def.sensor_type leg1_number leg2_number
      let unique_id := construct_synthetic_unique_id
        span_panel.status.serial_number ("solar_" ++ sensor_def.sensor_type)
      match _process_sensor_template ext.combine_yaml_templates sensor_def
          template_vars entity_id with
      | some final_config => dictSet sensor_configs unique_id final_config
      | none => sensor_configs)
    []

/-- `generate_solar_sensors` (lines 383–511).  The only uncaught exception is
the `int(...)` parse inside `_extract_leg_numbers` (propagated as
`Except.error`); every other anticipated failure degrades to a partial or
empty `Except.ok` result.  The `device_name` argument is accepted, as in the
source, but never read. -/
def generate_solar_sensors (ext : Externals)
    (coordinator : SpanPanelCoordinator) (span_panel : SpanPanel)
    (leg1_circuit leg2_circuit device_name : String) :
    Except String
      (List (String × SensorConfig) × List BackingEntity × List (String × String)) :=
  let backing_entities : List BackingEntity := []
  let global_settings := _load_global_settings ext coordinator span_panel
  match _extract_leg_numbers leg1_circuit leg2_circuit with
  | .error e => .error e
  | .ok legs =>
    if legs.1 = 0 ∧ legs.2 = 0 then
      .ok ([], [], global_settings)
    else
      -- `leg_result.1` is the leg-entity dictionary, `leg_result.2` the
      -- required-entities list of the source's tuple unpacking.
      let leg_result := _get_leg_entities ext span_panel legs.1 legs.2
      if leg_result.2 = [] then .ok ([], [], global_settings)
      else if leg_result.2.any (fun e => e == "") then
        .ok ([], [], global_settings)
      else
        let attrs := _get_template_attributes legs.1 legs.2
        let template_vars := solarTemplateVars coordinator span_panel
          leg1_circuit leg2_circuit attrs.1 attrs.2 leg_result.1
        let sensor_configs := solarSensorLoop ext coordinator span_panel
          template_vars legs.1 legs.2
        .ok (sensor_configs, backing_entities, global_settings)

/-! ## Concrete instances (used by witnesses and counterexamples) -/

/-- A concrete collaborator bundle: identity slugify, no device-info name, a
literal unmapped fallback and naming helpers, and a renderer that always
returns one sensor entry and one global setting. -/
def extW : Externals :=
  { slugify := fun s => s
  , device_info_name := fun _ => none
  , get_unmapped_circuit_entity_id := fun _ tab suffix =>
      some ("sensor.span_panel_unmapped_tab_" ++ toString tab ++ "_" ++ suffix)
  , construct_240v_synthetic_entity_id := fun _ _ _ sensor_type _ tab1 tab2 =>
      some ("sensor.solar_" ++ sensor_type ++ "_" ++ toString tab1 ++ "_" ++ toString tab2)
  , construct_120v_synthetic_entity_id := fun _ _ _ sensor_type _ tab =>
      some ("sensor.solar_" ++ sensor_type ++ "_" ++ toString tab)
  , combine_yaml_templates := fun _ _ =>
      .result
        (some [("solar",
          { entity_id := none
          , name := some "Solar"
          , formula := some "leg1 + leg2"
          , «variables» := none
          , attributes := none
          , metadata := none })])
        (some [("version", "1.0")]) }

/-- A coordinator with both precision options absent (defaults apply). -/
def coW : SpanPanelCoordinator := { power_display_precision := none, energy_display_precision := none }

/-- A panel with no mapped circuits and serial `"ABC123"`. -/
def spW : SpanPanel := { circuits := [], status := { serial_number := "ABC123" } }

/-- A single-tab circuit on tab 3, mapped before `circuitA35`. -/
def circuitB3 : SpanPanelCircuit :=
  { circuit_id := "b", name := "B", tabs := some [3] }

/-- A multi-tab circuit spanning tabs 3 and 5. -/
def circuitA35 : SpanPanelCircuit :=
  { circuit_id := "a", name := "A", tabs := some [3, 5] }

/-- A panel where tab 3 lies both in the single-tab circuit `circuitB3`
(earlier in mapping order) and in the multi-tab circuit `circuitA35`. -/
def spOverlap : SpanPanel :=
  { circuits := [("b", circuitB3), ("a", circuitA35)], status := { serial_number := "ABC123" } }

/-- A panel whose only circuit is the multi-tab `circuitA35`. -/
def spA35 : SpanPanel :=
  { circuits := [("a", circuitA35)], status := { serial_number := "ABC123" } }

/-! ## Helper lemmas -/

theorem lookupVar_cons {α : Type} (k key : String) (v : α) (m : List (String × α)) :
    lookupVar ((k, v) :: m) key = if k = key then some v else lookupVar m key := rfl

theorem lookupVar_cons_ne {α : Type} {k key : String} (v : α) (m : List (String × α))
    (h : k ≠ key) : lookupVar ((k, v) :: m) key = lookupVar m key := by
  simp [lookupVar, h]

theorem lookupVar_isSome_iff {α : Type} (m : List (String × α)) (k : String) :
    (lookupVar m k).isSome ↔ k ∈ keysOf m := by
  induction m with
  | nil => simp [lookupVar, keysOf]
  | cons p rest ih =>
    obtain ⟨k', v⟩ := p
    by_cases h : k' = k
    · subst h; simp [lookupVar, keysOf]
    · rw [lookupVar_cons_ne v rest h, ih]
      show k ∈ keysOf rest ↔ k ∈ keysOf ((k', v) :: rest)
      simp only [keysOf, List.map_cons, List.mem_cons]
      constructor
      · exact fun hk => Or.inr hk
      · rintro (rfl | hk)
        · exact absurd rfl h
        · exact hk

theorem keysOf_dictSet {α : Type} (m : List (String × α)) (k : String) (v : α) :
    keysOf (dictSet m k v) = if k ∈ keysOf m then keysOf m else keysOf m ++ [k] := by
  unfold dictSet
  by_cases h : (lookupVar m k).isSome
  · rw [if_pos h, if_pos ((lookupVar_isSome_iff m k).mp h)]
    unfold keysOf
    rw [List.map_map]
    apply List.map_congr_left
    intro p _
    by_cases hp : p.1 = k
    · simp [hp]
    · simp [hp]
  · rw [if_neg h, if_neg (fun hm => h ((lookupVar_isSome_iff m k).mpr hm))]
    simp [keysOf]

theorem mem_keysOf_dictSet {α : Type} (a k : String) (v : α) (m : List (String × α)) :
    a ∈ keysOf (dictSet m k v) ↔ a = k ∨ a ∈ keysOf m := by
  rw [keysOf_dictSet]
  split
  · next h =>
    constructor
    · exact fun ha => Or.inr ha
    · rintro (rfl | ha)
      · exact h
      · exact ha
  · simp [or_comm]

theorem string_append_left_cancel {s a b : String} (h : s ++ a = s ++ b) : a = b := by
  have hd := congrArg String.data h
  simp only [String.data_append] at hd
  exact String.ext (List.append_cancel_left hd)

theorem construct_synthetic_unique_id_inj (serial : String) {x y : String}
    (h : construct_synthetic_unique_id serial x = construct_synthetic_unique_id serial y) :
    x = y :=
  string_append_left_cancel (s := serial ++ "_") h

theorem construct_synthetic_unique_id_ne (serial : String) {x y : String} (h : x ≠ y) :
    construct_synthetic_unique_id serial x ≠ construct_synthetic_unique_id serial y :=
  fun heq => h (construct_synthetic_unique_id_inj serial heq)

/-- Inversion for `generate_solar_sensors`: a successful run always returns an
empty backing-entity list and the loaded global settings, and its sensor map is
either empty (a short-circuit branch) or the output of the per-sensor loop. -/
theorem generate_solar_sensors_ok_inversion (ext : Externals)
    (coordinator : SpanPanelCoordinator) (span_panel : SpanPanel)
    (leg1_circuit leg2_circuit device_name : String)
    (sc : List (String × SensorConfig)) (be : List BackingEntity)
    (gs : List (String × String))
    (h : generate_solar_sensors ext coordinator span_panel leg1_circuit
        leg2_circuit device_name = .ok (sc, be, gs)) :
    be = [] ∧ gs = _load_global_settings ext coordinator span_panel ∧
      (sc = [] ∨ ∃ tvars n1 n2, sc = solarSensorLoop ext coordinator span_panel tvars n1 n2) := by
  unfold generate_solar_sensors at h
  split at h
  · exact absurd h (by simp)
  · next legs heq =>
    by_cases hz : legs.1 = 0 ∧ legs.2 = 0
    · rw [if_pos hz] at h
      simp only [Except.ok.injEq, Prod.mk.injEq] at h
      obtain ⟨hsc, hbe, hgs⟩ := h
      exact ⟨hbe.symm, hgs.symm, Or.inl hsc.symm⟩
    · rw [if_neg hz] at h
      by_cases hr : (_get_leg_entities ext span_panel legs.1 legs.2).2 = []
      · rw [if_pos hr] at h
        simp only [Except.ok.injEq, Prod.mk.injEq] at h
        obtain ⟨hsc, hbe, hgs⟩ := h
        exact ⟨hbe.symm, hgs.symm, Or.inl hsc.symm⟩
      · rw [if_neg hr] at h
        by_cases ha : (_get_leg_entities ext span_panel legs.1 legs.2).2.any
            (fun e => e == "") = true
        · rw [if_pos ha] at h
          simp only [Except.ok.injEq, Prod.mk.injEq] at h
          obtain ⟨hsc, hbe, hgs⟩ := h
          exact ⟨hbe.symm, hgs.symm, Or.inl hsc.symm⟩
        · rw [if_neg ha] at h
          simp only [Except.ok.injEq, Prod.mk.injEq] at h
          obtain ⟨hsc, hbe, hgs⟩ := h
          exact ⟨hbe.symm, hgs.symm, Or.inr ⟨_, _, _, hsc.symm⟩⟩

/-! ## Claims -/

/-- C1: `_process_sensor_template` returns an empty result (`none`) exactly
when the target entity id is absent (falsy), some required variable for the
sensor kind is missing or the empty string, or the renderer raises, returns a
non-mapping, omits `sensor_configs`, or returns an empty `sensor_configs`;
in every other case it returns a normalized sensor-config record. -/
theorem process_sensor_template_none_iff
    (render : List String → List (String × String) → RenderOut)
    (sensor_def : SensorDef) (template_vars : List (String × String))
    (entity_id : Option String) :
    _process_sensor_template render sensor_def template_vars entity_id = none ↔
      (entity_id.getD "" = ""
        ∨ (∃ v ∈ requiredVars sensor_def.sensor_type,
            (lookupVar template_vars v).getD "" = "")
        ∨ renderOutFails (render [sensor_def.template]
            (dictSet template_vars "entity_id" (entity_id.getD ""))) = true) := by
  cases entity_id with
  | none => simp [_process_sensor_template]
  | some eid =>
    by_cases heid : eid = ""
    · subst heid
      simp [_process_sensor_template]
    · simp only [_process_sensor_template, Option.getD_some]
      rw [if_neg heid]
      by_cases hreq : ((requiredVars sensor_def.sensor_type).any
          (fun v => (lookupVar template_vars v).getD "" == "")) = true
      · rw [if_pos hreq]
        simp only [List.any_eq_true, beq_iff_eq] at hreq
        exact iff_of_true rfl (Or.inr (Or.inl hreq))
      · rw [if_neg hreq]
        have hreq' : ¬ ∃ v ∈ requiredVars sensor_def.sensor_type,
            (lookupVar template_vars v).getD "" = "" := by
          simpa [List.any_eq_true] using hreq
        cases hout : render [sensor_def.template] (dictSet template_vars "entity_id" eid) with
        | raises => simp [renderOutFails]
        | nonMapping => simp [renderOutFails]
        | result sc gs =>
          cases sc with
          | none => simp [renderOutFails]
          | some sensors =>
            cases sensors with
            | nil => simp [renderOutFails]
            | cons hd tl =>
              obtain ⟨key, cfg⟩ := hd
              simp [renderOutFails, heid, hreq']

/-- C2: when neither leg identifier starts with the `"unmapped_tab_"` prefix,
extraction yields `(0, 0)` and `generate_solar_sensors` returns an empty
sensor-config mapping, an empty backing-entity list, and the (possibly
non-empty) loaded global settings. -/
theorem generate_solar_sensors_no_prefix_empty (ext : Externals)
    (coordinator : SpanPanelCoordinator) (span_panel : SpanPanel)
    (l1 l2 dn : String)
    (h1 : pyStartswith l1 "unmapped_tab_" = false)
    (h2 : pyStartswith l2 "unmapped_tab_" = false) :
    _extract_leg_numbers l1 l2 = .ok (0, 0) ∧
      generate_solar_sensors ext coordinator span_panel l1 l2 dn
        = .ok ([], [], _load_global_settings ext coordinator span_panel) := by
  have hx : _extract_leg_numbers l1 l2 = .ok (0, 0) := by
    unfold _extract_leg_numbers
    rw [if_neg (by simp [h1]), if_neg (by simp [h2])]
  refine ⟨hx, ?_⟩
  unfold generate_solar_sensors
  rw [hx]
  simp

/-- C7: on every expected failure path the orchestrator raises no exception:
whenever the leg identifiers parse (the one unguarded operation),
`generate_solar_sensors` returns an `Except.ok` result for every behaviour of
the external collaborators — resolution failures, renderer failures and
global-settings load failures included. -/
theorem generate_solar_sensors_no_exception (ext : Externals)
    (coordinator : SpanPanelCoordinator) (span_panel : SpanPanel)
    (l1 l2 dn : String) (nums : Int × Int)
    (hx : _extract_leg_numbers l1 l2 = .ok nums) :
    ∃ out, generate_solar_sensors ext coordinator span_panel l1 l2 dn = .ok out := by
  cases hgen : generate_solar_sensors ext coordinator span_panel l1 l2 dn with
  | ok out => exact ⟨out, rfl⟩
  | error e =>
    exfalso
    unfold generate_solar_sensors at hgen
    split at hgen
    · next e' heq =>
      rw [hx] at heq
      exact Except.noConfusion heq
    · next legs heq =>
      by_cases hz : legs.1 = 0 ∧ legs.2 = 0
      · rw [if_pos hz] at hgen; exact Except.noConfusion hgen
      · rw [if_neg hz] at hgen
        by_cases hr : (_get_leg_entities ext span_panel legs.1 legs.2).2 = []
        · rw [if_pos hr] at hgen; exact Except.noConfusion hgen
        · rw [if_neg hr] at hgen
          by_cases ha : ((_get_leg_entities ext span_panel legs.1 legs.2).2.any
              (fun e => e == "")) = true
          · rw [if_pos ha] at hgen; exact Except.noConfusion hgen
          · rw [if_neg ha] at hgen; exact Except.noConfusion hgen

/-- C9: the backing-entities component of every successful
`generate_solar_sensors` result is the empty list. -/
theorem generate_solar_sensors_backing_empty (ext : Externals)
    (coordinator : SpanPanelCoordinator) (span_panel : SpanPanel)
    (l1 l2 dn : String) (sc : List (String × SensorConfig))
    (be : List BackingEntity) (gs : List (String × String))
    (h : generate_solar_sensors ext coordinator span_panel l1 l2 dn
        = .ok (sc, be, gs)) : be = [] :=
  (generate_solar_sensors_ok_inversion ext coordinator span_panel l1 l2 dn
    sc be gs h).1

/-- C10: `generate_solar_sensors` is deterministic — two invocations with
identical inputs (circuit snapshot, options, leg identifiers, device name and
collaborator functions) return identical results, sensor-config mapping
included; the embedding of the source is a pure function of exactly these
inputs, so no incidental randomness or ordering-sensitive effect exists. -/
theorem generate_solar_sensors_deterministic (ext : Externals)
    (coordinator : SpanPanelCoordinator) (span_panel : SpanPanel)
    (l1 l2 dn : String)
    (r1 r2 : Except String
      (List (String × SensorConfig) × List BackingEntity × List (String × String)))
    (h1 : generate_solar_sensors ext coordinator span_panel l1 l2 dn = r1)
    (h2 : generate_solar_sensors ext coordinator span_panel l1 l2 dn = r2) :
    r1 = r2 := h1 ▸ h2 ▸ rfl

/-- Witness for C2 at concrete inputs: neither `"circuit_7"` nor `""` carries
the unmapped prefix, and the run returns the empty maps plus the concrete
loaded global settings. -/
theorem generate_solar_sensors_no_prefix_empty_witness :
    pyStartswith "circuit_7" "unmapped_tab_" = false ∧
      pyStartswith "" "unmapped_tab_" = false ∧
      (_extract_leg_numbers "circuit_7" "" = .ok (0, 0) ∧
        generate_solar_sensors extW coW spW "circuit_7" "" "span_panel"
          = .ok ([], [], _load_global_settings extW coW spW)) :=
  ⟨by decide, by decide,
    generate_solar_sensors_no_prefix_empty extW coW spW "circuit_7" "" "span_panel"
      (by decide) (by decide)⟩

/-- Witness for C7 at concrete inputs. -/
theorem generate_solar_sensors_no_exception_witness :
    _extract_leg_numbers "unmapped_tab_15" "unmapped_tab_16" = .ok (15, 16) ∧
      ∃ out, generate_solar_sensors extW coW spW "unmapped_tab_15"
        "unmapped_tab_16" "span_panel" = .ok out :=
  ⟨rfl, generate_solar_sensors_no_exception extW coW spW "unmapped_tab_15"
    "unmapped_tab_16" "span_panel" (15, 16) rfl⟩

/-- Witness for C9 at concrete inputs. -/
theorem generate_solar_sensors_backing_empty_witness :
    generate_solar_sensors extW coW spW "circuit_7" "" "span_panel"
        = .ok ([], [], [("version", "1.0")]) ∧
      ([] : List BackingEntity) = [] :=
  ⟨rfl, generate_solar_sensors_backing_empty extW coW spW "circuit_7" ""
    "span_panel" [] [] [("version", "1.0")] rfl⟩

/-- Witness for C10 at concrete inputs. -/
theorem generate_solar_sensors_deterministic_witness :
    generate_solar_sensors extW coW spW "unmapped_tab_15" "unmapped_tab_16" "span_panel"
        = generate_solar_sensors extW coW spW "unmapped_tab_15" "unmapped_tab_16" "span_panel" :=
  generate_solar_sensors_deterministic extW coW spW "unmapped_tab_15"
    "unmapped_tab_16" "span_panel" _ _ rfl rfl

/-! ## Further helper lemmas: required-variable failures and the sensor loop -/

theorem process_sensor_template_none_of_missing
    (render : List String → List (String × String) → RenderOut)
    (sensor_def : SensorDef) (template_vars : List (String × String))
    (entity_id : Option String) (v : String)
    (hv : v ∈ requiredVars sensor_def.sensor_type)
    (hval : (lookupVar template_vars v).getD "" = "") :
    _process_sensor_template render sensor_def template_vars entity_id = none := by
  cases entity_id with
  | none => rfl
  | some eid =>
    by_cases heid : eid = ""
    · subst heid
      simp [_process_sensor_template]
    · simp only [_process_sensor_template]
      rw [if_neg heid, if_pos (List.any_eq_true.mpr ⟨v, hv, by simp [hval]⟩)]

theorem lookupVar_solarTemplateVars_leg_key (coordinator : SpanPanelCoordinator)
    (span_panel : SpanPanel) (l1c l2c ta : String) (va : Int)
    (le : List (String × String)) (k : String)
    (h1 : k ≠ "device_identifier") (h2 : k ≠ "power_display_precision")
    (h3 : k ≠ "energy_display_precision") (h4 : k ≠ "leg1_circuit")
    (h5 : k ≠ "leg2_circuit") (h6 : k ≠ "tabs_attribute")
    (h7 : k ≠ "voltage_attribute") :
    lookupVar (solarTemplateVars coordinator span_panel l1c l2c ta va le) k
      = lookupVar le k := by
  simp only [solarTemplateVars, List.cons_append, List.nil_append]
  rw [lookupVar_cons_ne _ _ (Ne.symm h1), lookupVar_cons_ne _ _ (Ne.symm h2),
    lookupVar_cons_ne _ _ (Ne.symm h3), lookupVar_cons_ne _ _ (Ne.symm h4),
    lookupVar_cons_ne _ _ (Ne.symm h5), lookupVar_cons_ne _ _ (Ne.symm h6),
    lookupVar_cons_ne _ _ (Ne.symm h7)]

theorem get_leg_entities_leg2_unconfigured (ext : Externals) (span_panel : SpanPanel)
    (n1 n2 : Int) (h : ¬ 0 < n2) :
    lookupVar (_get_leg_entities ext span_panel n1 n2).1 "leg2_power_entity" = some ""
    ∧ lookupVar (_get_leg_entities ext span_panel n1 n2).1 "leg2_produced_entity" = some ""
    ∧ lookupVar (_get_leg_entities ext span_panel n1 n2).1 "leg2_consumed_entity" = some "" := by
  unfold _get_leg_entities legEntityTriple
  rw [if_neg h]
  refine ⟨?_, ?_, ?_⟩ <;> simp [lookupVar]

theorem get_leg_entities_leg1_unconfigured (ext : Externals) (span_panel : SpanPanel)
    (n1 n2 : Int) (h : ¬ 0 < n1) :
    lookupVar (_get_leg_entities ext span_panel n1 n2).1 "leg1_power_entity" = some ""
    ∧ lookupVar (_get_leg_entities ext span_panel n1 n2).1 "leg1_produced_entity" = some ""
    ∧ lookupVar (_get_leg_entities ext span_panel n1 n2).1 "leg1_consumed_entity" = some "" := by
  unfold _get_leg_entities legEntityTriple
  rw [if_neg h]
  refine ⟨?_, ?_, ?_⟩ <;> simp [lookupVar]

theorem solarSensorLoop_eq_nil (ext : Externals) (coordinator : SpanPanelCoordinator)
    (span_panel : SpanPanel) (tvars : List (String × String)) (n1 n2 : Int)
    (hp : _process_sensor_template ext.combine_yaml_templates solarPowerDef tvars
        (_generate_sensor_entity_id ext coordinator span_panel
          solarPowerDef.sensor_type n1 n2) = none)
    (hq : _process_sensor_template ext.combine_yaml_templates solarProducedDef tvars
        (_generate_sensor_entity_id ext coordinator span_panel
          solarProducedDef.sensor_type n1 n2) = none)
    (hr : _process_sensor_template ext.combine_yaml_templates solarConsumedDef tvars
        (_generate_sensor_entity_id ext coordinator span_panel
          solarConsumedDef.sensor_type n1 n2) = none) :
    solarSensorLoop ext coordinator span_panel tvars n1 n2 = [] := by
  unfold solarSensorLoop SOLAR_SENSOR_DEFINITIONS
  dsimp only [List.foldl_cons, List.foldl_nil]
  rw [hp, hq, hr]

/-- C3: when exactly one extracted leg tab number is positive and the other
is 0, `generate_solar_sensors` returns an empty sensor-config mapping: the
unconfigured leg's entity variables are the empty string and every sensor
kind requires both legs' variables to be non-empty, so all three sensor
definitions are skipped. -/
theorem generate_solar_sensors_single_leg_empty (ext : Externals)
    (coordinator : SpanPanelCoordinator) (span_panel : SpanPanel)
    (l1 l2 dn : String) (n1 n2 : Int)
    (hx : _extract_leg_numbers l1 l2 = .ok (n1, n2))
    (hcase : (0 < n1 ∧ n2 = 0) ∨ (n1 = 0 ∧ 0 < n2)) :
    generate_solar_sensors ext coordinator span_panel l1 l2 dn
      = .ok ([], [], _load_global_settings ext coordinator span_panel) := by
  have hz : ¬(n1 = 0 ∧ n2 = 0) := by
    rcases hcase with ⟨h1, h2⟩ | ⟨h1, h2⟩ <;> omega
  -- each of the three sensor definitions fails its required-variable check
  have hproc : ∀ sensor_def ∈ SOLAR_SENSOR_DEFINITIONS,
      ∀ entity_id tabs_attr voltage_attr,
      _process_sensor_template ext.combine_yaml_templates sensor_def
        (solarTemplateVars coordinator span_panel l1 l2 tabs_attr voltage_attr
          (_get_leg_entities ext span_panel n1 n2).1) entity_id = none := by
    intro sensor_def hd entity_id tabs_attr voltage_attr
    rcases hcase with ⟨h1, h2⟩ | ⟨h1, h2⟩
    · -- leg 2 unconfigured: its three variables are `""`
      obtain ⟨e1, e2, e3⟩ :=
        get_leg_entities_leg2_unconfigured ext span_panel n1 n2 (by omega)
      fin_cases hd
      · exact process_sensor_template_none_of_missing _ _ _ _ "leg2_power_entity"
          (by decide)
          (by rw [lookupVar_solarTemplateVars_leg_key _ _ _ _ _ _ _ _ (by decide)
                (by decide) (by decide) (by decide) (by decide) (by decide) (by decide),
              e1]; rfl)
      · exact process_sensor_template_none_of_missing _ _ _ _ "leg2_produced_entity"
          (by decide)
          (by rw [lookupVar_solarTemplateVars_leg_key _ _ _ _ _ _ _ _ (by decide)
                (by decide) (by decide) (by decide) (by decide) (by decide) (by decide),
              e2]; rfl)
      · exact process_sensor_template_none_of_missing _ _ _ _ "leg2_consumed_entity"
          (by decide)
          (by rw [lookupVar_solarTemplateVars_leg_key _ _ _ _ _ _ _ _ (by decide)
                (by decide) (by decide) (by decide) (by decide) (by decide) (by decide),
              e3]; rfl)
    · -- leg 1 unconfigured: its three variables are `""`
      obtain ⟨e1, e2, e3⟩ :=
        get_leg_entities_leg1_unconfigured ext span_panel n1 n2 (by omega)
      fin_cases hd
      · exact process_sensor_template_none_of_missing _ _ _ _ "leg1_power_entity"
          (by decide)
          (by rw [lookupVar_solarTemplateVars_leg_key _ _ _ _ _ _ _ _ (by decide)
                (by decide) (by decide) (by decide) (by decide) (by decide) (by decide),
              e1]; rfl)
      · exact process_sensor_template_none_of_missing _ _ _ _ "leg1_produced_entity"
          (by decide)
          (by rw [lookupVar_solarTemplateVars_leg_key _ _ _ _ _ _ _ _ (by decide)
                (by decide) (by decide) (by decide) (by decide) (by decide) (by decide),
              e2]; rfl)
      · exact process_sensor_template_none_of_missing _ _ _ _ "leg1_consumed_entity"
          (by decide)
          (by rw [lookupVar_solarTemplateVars_leg_key _ _ _ _ _ _ _ _ (by decide)
                (by decide) (by decide) (by decide) (by decide) (by decide) (by decide),
              e3]; rfl)
  unfold generate_solar_sensors
  rw [hx]
  dsimp only
  rw [if_neg hz]
  by_cases hr : (_get_leg_entities ext span_panel n1 n2).2 = []
  · rw [if_pos hr]
  · rw [if_neg hr]
    by_cases ha : ((_get_leg_entities ext span_panel n1 n2).2.any
        (fun e => e == "")) = true
    · rw [if_pos ha]
    · rw [if_neg ha]
      rw [solarSensorLoop_eq_nil ext coordinator span_panel _ n1 n2
        (hproc _ (by simp [SOLAR_SENSOR_DEFINITIONS]) _ _ _)
        (hproc _ (by simp [SOLAR_SENSOR_DEFINITIONS]) _ _ _)
        (hproc _ (by simp [SOLAR_SENSOR_DEFINITIONS]) _ _ _)]

/-- Witness for C3 at concrete inputs: leg 1 on tab 15, leg 2 unconfigured. -/
theorem generate_solar_sensors_single_leg_empty_witness :
    _extract_leg_numbers "unmapped_tab_15" "circuit_7" = .ok (15, 0) ∧
      (((0:Int) < 15 ∧ (0:Int) = 0) ∨ ((15:Int) = 0 ∧ (0:Int) < 0)) ∧
      generate_solar_sensors extW coW spW "unmapped_tab_15" "circuit_7" "span_panel"
        = .ok ([], [], _load_global_settings extW coW spW) :=
  ⟨rfl, by decide,
    generate_solar_sensors_single_leg_empty extW coW spW "unmapped_tab_15"
      "circuit_7" "span_panel" 15 0 rfl (by decide)⟩

/-- C5: with two configured legs the attribute builder returns the two tab
numbers sorted ascending as the tabs attribute (via the synthetic two-tab
circuit) together with the 240 voltage class, and the dual-tab (240V) naming
path is used for every sensor kind; with fewer than two tabs the attributes
default to the empty tabs string and zero voltage, and the single-tab (120V)
naming path is used with the one positive tab. -/
theorem template_attributes_and_naming_paths (ext : Externals)
    (coordinator : SpanPanelCoordinator) (span_panel : SpanPanel)
    (sensor_type : String) (l1 l2 : Int) :
    (0 < l1 ∧ 0 < l2 →
      _get_template_attributes l1 l2
          = (underscoreJoin (List.insertionSort (· ≤ ·) [l1, l2]), 240)
        ∧ List.Sorted (· ≤ ·) (List.insertionSort (· ≤ ·) [l1, l2])
        ∧ (List.insertionSort (· ≤ ·) [l1, l2]).Perm [l1, l2]
        ∧ _generate_sensor_entity_id ext coordinator span_panel sensor_type l1 l2
            = ext.construct_240v_synthetic_entity_id coordinator span_panel
                "sensor" sensor_type "Solar" l1 l2)
    ∧ (¬(0 < l1 ∧ 0 < l2) →
        _get_template_attributes l1 l2 = ("", 0)
        ∧ (0 < l1 →
            _generate_sensor_entity_id ext coordinator span_panel sensor_type l1 l2
              = ext.construct_120v_synthetic_entity_id coordinator span_panel
                  "sensor" sensor_type "Solar" l1)
        ∧ (¬ 0 < l1 →
            _generate_sensor_entity_id ext coordinator span_panel sensor_type l1 l2
              = ext.construct_120v_synthetic_entity_id coordinator span_panel
                  "sensor" sensor_type "Solar" l2)) := by
  constructor
  · intro h
    refine ⟨?_, List.sorted_insertionSort _ _, List.perm_insertionSort _ _, ?_⟩
    · unfold _get_template_attributes
      rw [if_pos h]
      rfl
    · unfold _generate_sensor_entity_id
      rw [if_pos h]
  · intro h
    refine ⟨?_, ?_, ?_⟩
    · unfold _get_template_attributes
      rw [if_neg h]
    · intro h1
      unfold _generate_sensor_entity_id
      rw [if_neg h]
      simp [h1]
    · intro h1
      unfold _generate_sensor_entity_id
      rw [if_neg h]
      simp [h1]

/-- Witness for C5 at concrete inputs: legs on tabs 16 and 15 (two-leg arm of
the theorem, with the sorted `"15_16"` tabs attribute) and legs (15, 0)
(single-leg arm). -/
theorem template_attributes_and_naming_paths_witness :
    (((0:Int) < 16 ∧ (0:Int) < 15) ∧
      (_get_template_attributes 16 15
          = (underscoreJoin (List.insertionSort (· ≤ ·) [16, 15]), 240)
        ∧ List.Sorted (· ≤ ·) (List.insertionSort (· ≤ ·) [(16:Int), 15])
        ∧ (List.insertionSort (· ≤ ·) [(16:Int), 15]).Perm [16, 15]
        ∧ _generate_sensor_entity_id extW coW spW "power" 16 15
            = extW.construct_240v_synthetic_entity_id coW spW
                "sensor" "power" "Solar" 16 15)) ∧
    (¬((0:Int) < 15 ∧ (0:Int) < 0) ∧
      (_get_template_attributes 15 0 = ("", 0)
        ∧ ((0:Int) < 15 →
            _generate_sensor_entity_id extW coW spW "power" 15 0
              = extW.construct_120v_synthetic_entity_id coW spW
                  "sensor" "power" "Solar" 15)
        ∧ (¬ (0:Int) < 15 →
            _generate_sensor_entity_id extW coW spW "power" 15 0
              = extW.construct_120v_synthetic_entity_id coW spW
                  "sensor" "power" "Solar" 0))) :=
  ⟨⟨by decide,
      (template_attributes_and_naming_paths extW coW spW "power" 16 15).1 (by decide)⟩,
    ⟨by decide,
      (template_attributes_and_naming_paths extW coW spW "power" 15 0).2 (by decide)⟩⟩

/-- C4 (amended): for every tab whose first matching circuit in the
snapshot's iteration order is a mapped circuit spanning more than one tab,
the resolver constructs the entity id from that circuit's tab numbers sorted
ascending and joined by underscores; any two queried tabs that both resolve
first to that circuit yield the identical entity id. -/
theorem circuit_entity_id_multi_tab_sorted (ext : Externals)
    (span_panel : SpanPanel) (c : SpanPanelCircuit) (ts : List Int)
    (suffix : String) (t1 t2 : Int)
    (hts : c.tabs = some ts) (hlen : 1 < ts.length)
    (h1 : firstTabMatch t1 span_panel.circuits = some c)
    (h2 : firstTabMatch t2 span_panel.circuits = some c) :
    _get_circuit_entity_id ext span_panel t1 suffix
        = some ("sensor." ++ deviceNameOf ext span_panel ++ "_circuit_" ++
            underscoreJoin (ts.insertionSort (· ≤ ·)) ++ "_" ++ suffix)
      ∧ _get_circuit_entity_id ext span_panel t1 suffix
          = _get_circuit_entity_id ext span_panel t2 suffix
      ∧ List.Sorted (· ≤ ·) (ts.insertionSort (· ≤ ·))
      ∧ (ts.insertionSort (· ≤ ·)).Perm ts := by
  have he : ∀ t, firstTabMatch t span_panel.circuits = some c →
      _get_circuit_entity_id ext span_panel t suffix
        = some ("sensor." ++ deviceNameOf ext span_panel ++ "_circuit_" ++
            underscoreJoin (ts.insertionSort (· ≤ ·)) ++ "_" ++ suffix) := by
    intro t ht
    unfold _get_circuit_entity_id
    rw [ht]
    dsimp only
    unfold mappedCircuitEntityId
    rw [hts]
    simp only [Option.getD_some]
    rw [if_neg (by omega)]
  exact ⟨he t1 h1, (he t1 h1).trans (he t2 h2).symm,
    List.sorted_insertionSort _ _, List.perm_insertionSort _ _⟩

/-- Witness for the amended C4: the panel `spA35`, whose only circuit spans
tabs {3, 5}; querying tab 3 and tab 5 yields the identical sorted-suffix id. -/
theorem circuit_entity_id_multi_tab_sorted_witness :
    (circuitA35.tabs = some [3, 5] ∧ 1 < ([3, 5] : List Int).length
      ∧ firstTabMatch 3 spA35.circuits = some circuitA35
      ∧ firstTabMatch 5 spA35.circuits = some circuitA35) ∧
    (_get_circuit_entity_id extW spA35 3 "power"
        = some ("sensor." ++ deviceNameOf extW spA35 ++ "_circuit_" ++
            underscoreJoin (([3, 5] : List Int).insertionSort (· ≤ ·)) ++ "_" ++ "power")
      ∧ _get_circuit_entity_id extW spA35 3 "power"
          = _get_circuit_entity_id extW spA35 5 "power"
      ∧ List.Sorted (· ≤ ·) (([3, 5] : List Int).insertionSort (· ≤ ·))
      ∧ ((([3, 5] : List Int).insertionSort (· ≤ ·))).Perm [3, 5]) :=
  ⟨⟨rfl, by decide, by decide, by decide⟩,
    circuit_entity_id_multi_tab_sorted extW spA35 circuitA35 [3, 5] "power" 3 5
      rfl (by decide) (by decide) (by decide)⟩

/-- Counterexample to C4 as stated: in `spOverlap`, tab 3 lies in the tab set
of the multi-tab mapped circuit `circuitA35` (spanning {3, 5}), yet the
resolver — which takes the first circuit in iteration order containing the
tab, here the single-tab circuit on tab 3 — does not build the sorted
`"3_5"` suffix for tab 3, and resolving tab 3 differs from resolving tab 5. -/
theorem circuit_entity_id_overlap_counterexample :
    (("a", circuitA35) ∈ spOverlap.circuits
      ∧ circuitA35.tabs = some [3, 5]
      ∧ 1 < ([3, 5] : List Int).length
      ∧ (3 : Int) ∈ [(3 : Int), 5] ∧ (5 : Int) ∈ [(3 : Int), 5])
    ∧ _get_circuit_entity_id extW spOverlap 3 "power"
        ≠ some ("sensor." ++ deviceNameOf extW spOverlap ++ "_circuit_" ++
            underscoreJoin (([3, 5] : List Int).insertionSort (· ≤ ·)) ++ "_" ++ "power")
    ∧ _get_circuit_entity_id extW spOverlap 3 "power"
        ≠ _get_circuit_entity_id extW spOverlap 5 "power" := by
  refine ⟨⟨by decide, rfl, by decide, by decide, by decide⟩, by decide, by decide⟩

/-- The three solar unique ids of one run are pairwise distinct for every
serial number. -/
theorem solar_uid_pairwise_ne (serial : String) :
    construct_synthetic_unique_id serial "solar_power"
        ≠ construct_synthetic_unique_id serial "solar_energy_produced"
    ∧ construct_synthetic_unique_id serial "solar_power"
        ≠ construct_synthetic_unique_id serial "solar_energy_consumed"
    ∧ construct_synthetic_unique_id serial "solar_energy_produced"
        ≠ construct_synthetic_unique_id serial "solar_energy_consumed" :=
  ⟨construct_synthetic_unique_id_ne serial (by decide),
   construct_synthetic_unique_id_ne serial (by decide),
   construct_synthetic_unique_id_ne serial (by decide)⟩

/-- C6: the three sensor definitions are processed independently and
failure-isolated: a kind's unique id appears among the keys of the loop's
result exactly when that kind's own template processing succeeds, whatever
the outcomes of the other two kinds. -/
theorem solar_sensor_failure_isolation (ext : Externals)
    (coordinator : SpanPanelCoordinator) (span_panel : SpanPanel)
    (tvars : List (String × String)) (n1 n2 : Int)
    (d : SensorDef) (hd : d ∈ SOLAR_SENSOR_DEFINITIONS) :
    (construct_synthetic_unique_id span_panel.status.serial_number
        ("solar_" ++ d.sensor_type)
        ∈ keysOf (solarSensorLoop ext coordinator span_panel tvars n1 n2))
      ↔ (_process_sensor_template ext.combine_yaml_templates d tvars
          (_generate_sensor_entity_id ext coordinator span_panel
            d.sensor_type n1 n2)).isSome := by
  obtain ⟨a12, a13, a23⟩ := solar_uid_pairwise_ne span_panel.status.serial_number
  have a21 := a12.symm
  have a31 := a13.symm
  have a32 := a23.symm
  unfold solarSensorLoop SOLAR_SENSOR_DEFINITIONS
  dsimp only [List.foldl_cons, List.foldl_nil]
  fin_cases hd <;>
    cases hp : _process_sensor_template ext.combine_yaml_templates solarPowerDef tvars
        (_generate_sensor_entity_id ext coordinator span_panel
          solarPowerDef.sensor_type n1 n2) <;>
    cases hq : _process_sensor_template ext.combine_yaml_templates solarProducedDef tvars
        (_generate_sensor_entity_id ext coordinator span_panel
          solarProducedDef.sensor_type n1 n2) <;>
    cases hr : _process_sensor_template ext.combine_yaml_templates solarConsumedDef tvars
        (_generate_sensor_entity_id ext coordinator span_panel
          solarConsumedDef.sensor_type n1 n2) <;>
    simp [mem_keysOf_dictSet, dictSet, lookupVar, keysOf,
      solarPowerDef, solarProducedDef, solarConsumedDef,
      a12, a13, a23, a21, a31, a32]

/-- Witness for C6 at concrete inputs: the power kind's required variables
are absent from the variable map while the produced/consumed variables are
present, so the power unique id is absent from the loop's keys (the iff's
right side evaluates to `false` for the power kind only). -/
theorem solar_sensor_failure_isolation_witness :
    solarPowerDef ∈ SOLAR_SENSOR_DEFINITIONS ∧
      ((construct_synthetic_unique_id spW.status.serial_number
          ("solar_" ++ solarPowerDef.sensor_type)
          ∈ keysOf (solarSensorLoop extW coW spW
              [ ("leg1_produced_entity", "a"), ("leg2_produced_entity", "b")
              , ("leg1_consumed_entity", "c"), ("leg2_consumed_entity", "d") ] 15 16))
        ↔ (_process_sensor_template extW.combine_yaml_templates solarPowerDef
            [ ("leg1_produced_entity", "a"), ("leg2_produced_entity", "b")
            , ("leg1_consumed_entity", "c"), ("leg2_consumed_entity", "d") ]
            (_generate_sensor_entity_id extW coW spW
              solarPowerDef.sensor_type 15 16)).isSome) :=
  ⟨by decide,
    solar_sensor_failure_isolation extW coW spW
      [ ("leg1_produced_entity", "a"), ("leg2_produced_entity", "b")
      , ("leg1_consumed_entity", "c"), ("leg2_consumed_entity", "d") ] 15 16
      solarPowerDef (by decide)⟩

/-- The per-sensor loop produces at most one entry per definition: its keys
are pairwise distinct, drawn from the three solar unique ids, and number at
most three. -/
theorem solarSensorLoop_keys_bounded (ext : Externals)
    (coordinator : SpanPanelCoordinator) (span_panel : SpanPanel)
    (tvars : List (String × String)) (n1 n2 : Int) :
    (keysOf (solarSensorLoop ext coordinator span_panel tvars n1 n2)).Nodup
    ∧ keysOf (solarSensorLoop ext coordinator span_panel tvars n1 n2)
        ⊆ [ construct_synthetic_unique_id span_panel.status.serial_number "solar_power"
          , construct_synthetic_unique_id span_panel.status.serial_number "solar_energy_produced"
          , construct_synthetic_unique_id span_panel.status.serial_number "solar_energy_consumed" ]
    ∧ (solarSensorLoop ext coordinator span_panel tvars n1 n2).length ≤ 3 := by
  obtain ⟨a12, a13, a23⟩ := solar_uid_pairwise_ne span_panel.status.serial_number
  have a21 := a12.symm
  have a31 := a13.symm
  have a32 := a23.symm
  unfold solarSensorLoop SOLAR_SENSOR_DEFINITIONS
  dsimp only [List.foldl_cons, List.foldl_nil]
  cases hp : _process_sensor_template ext.combine_yaml_templates solarPowerDef tvars
      (_generate_sensor_entity_id ext coordinator span_panel
        solarPowerDef.sensor_type n1 n2) <;>
    cases hq : _process_sensor_template ext.combine_yaml_templates solarProducedDef tvars
        (_generate_sensor_entity_id ext coordinator span_panel
          solarProducedDef.sensor_type n1 n2) <;>
    cases hr : _process_sensor_template ext.combine_yaml_templates solarConsumedDef tvars
        (_generate_sensor_entity_id ext coordinator span_panel
          solarConsumedDef.sensor_type n1 n2) <;>
    simp [dictSet, lookupVar, keysOf,
      solarPowerDef, solarProducedDef, solarConsumedDef,
      a12, a13, a23, a21, a31, a32]

/-- C8: every successful run yields at most one sensor-config entry per
definition, keyed by the unique id derived from the device serial and the
`"solar_<sensor_type>"` token; the three possible keys are pairwise distinct,
the stored keys are pairwise distinct and drawn from those three, and at most
three entries exist. -/
theorem generate_solar_sensors_unique_keys (ext : Externals)
    (coordinator : SpanPanelCoordinator) (span_panel : SpanPanel)
    (l1 l2 dn : String) (sc : List (String × SensorConfig))
    (be : List BackingEntity) (gs : List (String × String))
    (h : generate_solar_sensors ext coordinator span_panel l1 l2 dn
        = .ok (sc, be, gs)) :
    ([ construct_synthetic_unique_id span_panel.status.serial_number "solar_power"
     , construct_synthetic_unique_id span_panel.status.serial_number "solar_energy_produced"
     , construct_synthetic_unique_id span_panel.status.serial_number "solar_energy_consumed" ]).Nodup
    ∧ (keysOf sc).Nodup
    ∧ keysOf sc
        ⊆ [ construct_synthetic_unique_id span_panel.status.serial_number "solar_power"
          , construct_synthetic_unique_id span_panel.status.serial_number "solar_energy_produced"
          , construct_synthetic_unique_id span_panel.status.serial_number "solar_energy_consumed" ]
    ∧ sc.length ≤ 3 := by
  have hnodup : ([ construct_synthetic_unique_id span_panel.status.serial_number "solar_power"
      , construct_synthetic_unique_id span_panel.status.serial_number "solar_energy_produced"
      , construct_synthetic_unique_id span_panel.status.serial_number "solar_energy_consumed" ]).Nodup := by
    obtain ⟨a12, a13, a23⟩ := solar_uid_pairwise_ne span_panel.status.serial_number
    simp [List.nodup_cons, a12, a13, a23]
  obtain ⟨-, -, hsc⟩ := generate_solar_sensors_ok_inversion ext coordinator
    span_panel l1 l2 dn sc be gs h
  rcases hsc with rfl | ⟨tvars, m1, m2, rfl⟩
  · exact ⟨hnodup, by simp [keysOf], by simp [keysOf], by simp⟩
  · obtain ⟨k1, k2, k3⟩ := solarSensorLoop_keys_bounded ext coordinator span_panel tvars m1 m2
    exact ⟨hnodup, k1, k2, k3⟩

/-- Witness for C8 at concrete inputs: the spec's reference scenario (legs on
unmapped tabs 15 and 16, serial `"ABC123"`). -/
theorem generate_solar_sensors_unique_keys_witness :
    (∃ sc : List (String × SensorConfig), ∃ gs : List (String × String),
      generate_solar_sensors extW coW spW "unmapped_tab_15" "unmapped_tab_16" "span_panel"
        = .ok (sc, [], gs)
      ∧ ([ construct_synthetic_unique_id spW.status.serial_number "solar_power"
         , construct_synthetic_unique_id spW.status.serial_number "solar_energy_produced"
         , construct_synthetic_unique_id spW.status.serial_number "solar_energy_consumed" ]).Nodup
      ∧ (keysOf sc).Nodup
      ∧ keysOf sc
          ⊆ [ construct_synthetic_unique_id spW.status.serial_number "solar_power"
            , construct_synthetic_unique_id spW.status.serial_number "solar_energy_produced"
            , construct_synthetic_unique_id spW.status.serial_number "solar_energy_consumed" ]
      ∧ sc.length ≤ 3) :=
  ⟨_, _, rfl,
    generate_solar_sensors_unique_keys extW coW spW "unmapped_tab_15"
      "unmapped_tab_16" "span_panel" _ [] _ rfl⟩
